import Mathlib

/-!
Verification development for the multi-method anomaly-detection ensemble
(rules engine, seasonal-residual detector, outlier-model adapter, consensus
merger) of the campus energy-monitoring backend.

Shallow embedding conventions:
* machine floats are modelled as exact rationals (`ℚ`);
* pandas rows become the `Row` structure, timestamps become the `Timestamp`
  structure (calendar date abstracted into a `date` index);
* dictionaries emitted by the detectors become the `Anomaly` structure, with
  `Option` fields for keys that only some detectors set;
* externally-trained components (the statsmodels STL fit, the pandas sample
  standard deviation, the pretrained isolation-forest model, the baseline
  statistics computation invoked by `fit`) appear as explicit function
  parameters — the embedded code's control flow around them follows the source;
* interpolated text inside f-string descriptions is elided: each description
  is modelled by the static template constant of its source string, since no
  property under study depends on description contents.
-/

/-- Severity tiers, ordinal `low < medium < high < critical`
(`severity_order` in `ensemble_detector.py` / `rules_engine.py`). -/
inductive Severity
  | low
  | medium
  | high
  | critical
deriving DecidableEq, Repr, Inhabited

/-- The ordinal index of a severity: `{'low': 0, 'medium': 1, 'high': 2, 'critical': 3}`. -/
def Severity.ord : Severity → Nat
  | .low => 0
  | .medium => 1
  | .high => 2
  | .critical => 3

/-- A timestamp: the calendar date is abstracted into the `date` index; hour,
minute and second are explicit so that truncation to the hour
(`ts.strftime` with minutes forced to `00` in `_merge_anomalies`) is expressible. -/
structure Timestamp where
  date : Nat
  hour : Nat
  minute : Nat
  second : Nat
deriving DecidableEq, Repr, Inhabited

/-- Embeds `ts.strftime` with the `minute` field forced to zero, then parsed back by
`pd.to_datetime`: the timestamp truncated to its hour. -/
def truncToHour (t : Timestamp) : Timestamp :=
  { t with minute := 0, second := 0 }

/-- Per-site historical statistics (`self.historical_stats[sede]` computed by
`compute_historical_stats`). Only the entries read by the rule checks are
carried, plus the per-sector means/stds that `fit` also computes. -/
structure Stats where
  mean : ℚ
  std : ℚ
  median : ℚ
  working_hours_mean : ℚ
  non_working_mean : ℚ
  weekend_mean : ℚ
  weekday_mean : ℚ
  sector_stats : List (String × ℚ × ℚ)
deriving DecidableEq, Repr, Inhabited

/-- One consumption record (a pandas row). -/
structure Row where
  timestamp : Timestamp
  sede : String
  hora : Nat
  dia_semana : Nat
  energia_total_kwh : ℚ
  ocupacion_pct : Option ℚ
  es_festivo : Bool
  periodo_academico : String
deriving DecidableEq, Repr, Inhabited

/-- The `DetectedAnomaly` dataclass of `rules_engine.py` (the unused `context`
field is omitted; it is never set anywhere in the source). -/
structure DetectedAnomaly where
  timestamp : Timestamp
  sede : String
  sector : String
  anomaly_type : String
  severity : Severity
  actual_value : ℚ
  expected_value : ℚ
  deviation_pct : ℚ
  description : String
  recommendation : String
  potential_savings_kwh : ℚ
  z_score : Option ℚ
deriving DecidableEq, Repr, Inhabited

/-- One severity-threshold table (`severity_thresholds` of a rule in
`ANOMALY_RULES`; every table defines all four keys). -/
structure SevThresholds where
  low : ℚ
  medium : ℚ
  high : ℚ
  critical : ℚ
deriving DecidableEq, Repr

/-- Embeds `RulesBasedDetector._get_severity`: the highest tier whose cutoff is
below or equal to the observed ratio, default `low`. -/
def get_severity (r : ℚ) (t : SevThresholds) : Severity :=
  if t.critical ≤ r then .critical
  else if t.high ≤ r then .high
  else if t.medium ≤ r then .medium
  else .low

/-- Embeds `ANOMALY_RULES['off_hours_usage']['hours']`: `range(22,24) + range(0,6)`. -/
def offHoursHours : List Nat := [22, 23, 0, 1, 2, 3, 4, 5]

def offHoursThresholds : SevThresholds := ⟨35/100, 50/100, 75/100, 1⟩
def weekendThresholds : SevThresholds := ⟨40/100, 60/100, 80/100, 1⟩
def spikeThresholds : SevThresholds := ⟨3, 4, 5, 6⟩
def lowOccupancyThresholds : SevThresholds := ⟨70/100, 85/100, 1, 12/10⟩
def holidayThresholds : SevThresholds := ⟨30/100, 45/100, 60/100, 80/100⟩
def vacationThresholds : SevThresholds := ⟨40/100, 55/100, 70/100, 85/100⟩

def offHoursDescr : String := "Consumo fuera de horario sobre el umbral"
def offHoursRec : String :=
  "Verificar equipos activos fuera de horario. Considerar instalar temporizadores automáticos."
def weekendDescr : String := "Consumo elevado en fin de semana"
def weekendRec : String :=
  "Verificar que equipos no esenciales estén apagados. Establecer protocolo de cierre de fin de semana."
def spikeDescr : String := "Pico de consumo sobre promedio"
def spikeRec : String :=
  "Investigar causa del pico. Verificar encendido simultáneo de equipos de alta potencia."
def lowOccupancyDescr : String := "Consumo alto con baja ocupación"
def lowOccupancyRec : String :=
  "Revisar sistemas HVAC y ajustar según ocupación real. Considerar sensores de presencia."
def holidayDescr : String := "Consumo en día festivo sobre el máximo esperado"
def holidayRec : String :=
  "Verificar equipos activos en festivo. Asegurar protocolo de apagado para festivos."
def vacationDescr : String := "Consumo durante vacaciones sobre el máximo esperado"
def vacationRec : String :=
  "Revisar equipos activos durante vacaciones. Aprovechar periodo para mantenimiento preventivo."

/-- Embeds `RulesBasedDetector._check_off_hours`. -/
def check_off_hours (row : Row) (stats : Stats) : Option DetectedAnomaly :=
  if row.hora ∈ offHoursHours then
    let expected := stats.non_working_mean
    let threshold := stats.working_hours_mean * (35/100)
    let actual := row.energia_total_kwh
    if threshold < actual then
      let devPct := ((actual - threshold) / threshold) * 100
      let r := actual / stats.working_hours_mean
      some { timestamp := row.timestamp, sede := row.sede, sector := "total",
             anomaly_type := "off_hours_usage",
             severity := get_severity r offHoursThresholds,
             actual_value := actual, expected_value := expected,
             deviation_pct := devPct,
             description := offHoursDescr, recommendation := offHoursRec,
             potential_savings_kwh := actual - expected, z_score := none }
    else none
  else none

/-- Embeds `RulesBasedDetector._check_weekend`. -/
def check_weekend (row : Row) (stats : Stats) : Option DetectedAnomaly :=
  if row.dia_semana ∈ [5, 6] then
    let expected := stats.weekend_mean
    let threshold := stats.weekday_mean * (40/100)
    let actual := row.energia_total_kwh
    if threshold < actual then
      let devPct := ((actual - threshold) / threshold) * 100
      let r := actual / stats.weekday_mean
      some { timestamp := row.timestamp, sede := row.sede, sector := "total",
             anomaly_type := "weekend_anomaly",
             severity := get_severity r weekendThresholds,
             actual_value := actual, expected_value := expected,
             deviation_pct := devPct,
             description := weekendDescr, recommendation := weekendRec,
             potential_savings_kwh := actual - expected, z_score := none }
    else none
  else none

/-- Embeds `RulesBasedDetector._check_spike` (the `std == 0` guard, then the
z-score and minimum-deviation thresholds). -/
def check_spike (row : Row) (stats : Stats) : Option DetectedAnomaly :=
  if stats.std = 0 then none
  else
    let actual := row.energia_total_kwh
    let z := (actual - stats.mean) / stats.std
    if 3 ≤ z then
      let devPct := ((actual - stats.mean) / stats.mean) * 100
      if 50 ≤ devPct then
        some { timestamp := row.timestamp, sede := row.sede, sector := "total",
               anomaly_type := "consumption_spike",
               severity := get_severity z spikeThresholds,
               actual_value := actual, expected_value := stats.mean,
               deviation_pct := devPct,
               description := spikeDescr, recommendation := spikeRec,
               potential_savings_kwh := actual - stats.mean, z_score := some z }
      else none
    else none

/-- Embeds `RulesBasedDetector._check_low_occupancy` (`pd.isna` / missing column
modelled by `Option`). -/
def check_low_occupancy (row : Row) (stats : Stats) : Option DetectedAnomaly :=
  match row.ocupacion_pct with
  | none => none
  | some occ =>
    if 30 ≤ occ then none
    else
      let expected := stats.mean * (occ / 100)
      let threshold := stats.mean * (70/100)
      let actual := row.energia_total_kwh
      if threshold < actual then
        let devPct := if 0 < expected then ((actual - expected) / expected) * 100 else 100
        let r := actual / stats.mean
        some { timestamp := row.timestamp, sede := row.sede, sector := "total",
               anomaly_type := "low_occupancy_high_consumption",
               severity := get_severity r lowOccupancyThresholds,
               actual_value := actual, expected_value := expected,
               deviation_pct := devPct,
               description := lowOccupancyDescr, recommendation := lowOccupancyRec,
               potential_savings_kwh := actual - expected, z_score := none }
      else none

/-- Embeds `RulesBasedDetector._check_holiday`. -/
def check_holiday (row : Row) (stats : Stats) : Option DetectedAnomaly :=
  if row.es_festivo then
    let expected := stats.mean * (30/100)
    let actual := row.energia_total_kwh
    if expected < actual then
      let devPct := ((actual - expected) / expected) * 100
      let r := actual / stats.mean
      some { timestamp := row.timestamp, sede := row.sede, sector := "total",
             anomaly_type := "holiday_consumption",
             severity := get_severity r holidayThresholds,
             actual_value := actual, expected_value := expected,
             deviation_pct := devPct,
             description := holidayDescr, recommendation := holidayRec,
             potential_savings_kwh := actual - expected, z_score := none }
    else none
  else none

/-- Embeds `RulesBasedDetector._check_vacation`. -/
def check_vacation (row : Row) (stats : Stats) : Option DetectedAnomaly :=
  if row.periodo_academico ∈ ["vacaciones_fin", "vacaciones_mitad", "vacaciones"] then
    let expected := stats.mean * (40/100)
    let actual := row.energia_total_kwh
    if expected < actual then
      let devPct := ((actual - expected) / expected) * 100
      let r := actual / stats.mean
      some { timestamp := row.timestamp, sede := row.sede, sector := "total",
             anomaly_type := "academic_vacation_high",
             severity := get_severity r vacationThresholds,
             actual_value := actual, expected_value := expected,
             deviation_pct := devPct,
             description := vacationDescr, recommendation := vacationRec,
             potential_savings_kwh := actual - expected, z_score := none }
    else none
  else none

/-- Distinct elements of a list in first-occurrence order: models pandas
`Series.unique`, Python `dict` key insertion order, and `set` contents
(where only membership and cardinality are ever observed). -/
def uniqueFirst {α : Type} [DecidableEq α] (l : List α) : List α :=
  l.reverse.dedup.reverse

/-- Stable insertion of `x` into `l` in front of the first element `y` with
`le x y`. -/
def insertLe {α : Type} (le : α → α → Bool) (x : α) : List α → List α
  | [] => [x]
  | y :: ys => if le x y then x :: y :: ys else y :: insertLe le x ys

/-- Insertion sort with comparator `le`; models Python `list.sort` /
pandas `sort_values` up to the order of key-equal elements, which no
property under study observes. -/
def insertionSort {α : Type} (le : α → α → Bool) : List α → List α
  | [] => []
  | x :: xs => insertLe le x (insertionSort le xs)

/-- First-match association lookup: Python `dict.get` over a keyed list. -/
def alookup {β : Type} : List (String × β) → String → Option β
  | [], _ => none
  | p :: l, k => if p.1 = k then some p.2 else alookup l k

/-- Embeds `np.mean` / `pandas.Series.mean` over exact rationals. -/
def qmean (xs : List ℚ) : ℚ := xs.sum / xs.length

/-- Ascending comparison of timestamps (lexicographic on date, hour,
minute, second), as `pandas` compares datetimes. -/
def Timestamp.leB (a b : Timestamp) : Bool :=
  if a.date ≠ b.date then a.date < b.date
  else if a.hour ≠ b.hour then a.hour < b.hour
  else if a.minute ≠ b.minute then a.minute < b.minute
  else a.second ≤ b.second

/-- Embeds `severity_order.index(severity_threshold) if severity_threshold else 0`. -/
def minSevIdx (thr : Option Severity) : Nat :=
  match thr with
  | some s => s.ord
  | none => 0

/-- Embeds `df['sede'].unique()`: the site names in first-occurrence order. -/
def sedesOf (df : List Row) : List String := uniqueFirst (df.map Row.sede)

/-- Embeds `RulesBasedDetector.detect` (batch), given already-computed historical
stats: iterate sites, skip sites without stats, run the six checks on every
row of the site, and filter by the caller's minimum severity. -/
def rules_detect (stats : List (String × Stats)) (df : List Row)
    (thr : Option Severity) : List DetectedAnomaly :=
  (sedesOf df).bind (fun sede =>
    match alookup stats sede with
    | none => []
    | some st =>
      (df.filter (fun r => r.sede = sede)).bind (fun row =>
        ([check_off_hours row st, check_weekend row st, check_spike row st,
          check_low_occupancy row st, check_holiday row st,
          check_vacation row st].filterMap id).filter
          (fun a => minSevIdx thr ≤ a.severity.ord)))

/-- Embeds `RulesBasedDetector.detect_for_record` (real-time): five checks, no
vacation check, no severity filter, empty result when the site has no
fitted stats. -/
def detect_for_record (stats : List (String × Stats)) (record : Row)
    (sede : String) : List DetectedAnomaly :=
  let row := { record with sede := sede }
  match alookup stats sede with
  | none => []
  | some st =>
    [check_off_hours row st, check_weekend row st, check_spike row st,
     check_low_occupancy row st, check_holiday row st].filterMap id

/-- The mutable state of a `RulesBasedDetector`: its `historical_stats`
mapping (empty until `compute_historical_stats` runs). -/
structure RulesBasedDetectorState where
  historical_stats : List (String × Stats)
deriving DecidableEq, Repr

/-- Embeds `RulesBasedDetector.detect` as a state transition: lines 503-505 of
`rules_engine.py` lazily run `compute_historical_stats` when and only when
no stats are stored. The statistics computation itself (pandas aggregation,
external to the claims) is the explicit parameter `computeFn`. -/
def rulesDetectStep (computeFn : List Row → List (String × Stats))
    (d : RulesBasedDetectorState) (df : List Row) (thr : Option Severity) :
    RulesBasedDetectorState × List DetectedAnomaly :=
  let d2 := if d.historical_stats.isEmpty then ⟨computeFn df⟩ else d
  (d2, rules_detect d2.historical_stats df thr)

/-- An anomaly dictionary as emitted by the detectors
(`to_dict_list`, the STL detector, the isolation-forest adapter):
`Option` fields model keys only some emitters set. -/
structure Anomaly where
  timestamp : Timestamp
  sede : String
  sector : String
  anomaly_type : String
  severity : Severity
  actual_value : ℚ
  expected_value : ℚ
  deviation_pct : ℚ
  description : String
  recommendation : String
  potential_savings_kwh : ℚ
  z_score : Option ℚ := none
  detection_method : Option String := none
  isolation_score : Option ℚ := none
  trend_value : Option ℚ := none
  seasonal_value : Option ℚ := none
  residual_value : Option ℚ := none
deriving DecidableEq, Repr, Inhabited

/-- Embeds `RulesBasedDetector.to_dict_list`, per element. -/
def DetectedAnomaly.toDict (a : DetectedAnomaly) : Anomaly :=
  { timestamp := a.timestamp, sede := a.sede, sector := a.sector,
    anomaly_type := a.anomaly_type, severity := a.severity,
    actual_value := a.actual_value, expected_value := a.expected_value,
    deviation_pct := a.deviation_pct, description := a.description,
    recommendation := a.recommendation,
    potential_savings_kwh := a.potential_savings_kwh, z_score := a.z_score }

/-- The three components returned by `STLAnomalyDetector.decompose`. -/
structure Decomposition where
  trend : List ℚ
  seasonal : List ℚ
  residual : List ℚ
deriving DecidableEq, Repr, Inhabited

/-- Embeds `STLAnomalyDetector.decompose`: a series shorter than two seasonal
periods returns the identity fallback (trend = series, seasonal = 0,
residual = 0); otherwise the external statsmodels STL fit runs (abstracted,
together with its interpolation clean-up and its own exception fallback,
as the parameter `stlFit`). -/
def decompose (period : Nat) (stlFit : List ℚ → Decomposition)
    (series : List ℚ) : Decomposition :=
  if series.length < period * 2 then
    { trend := series,
      seasonal := series.map (fun _ => 0),
      residual := series.map (fun _ => 0) }
  else stlFit series

def stlSpikeDescr : String := "Consumo anormalmente alto sobre tendencia y estacionalidad"
def stlSpikeRec : String :=
  "Investigar causa del incremento. Verificar si hubo evento especial o falla de equipo."
def stlDropDescr : String := "Consumo anormalmente bajo"
def stlDropRec : String := "Verificar si hubo cierre no programado o falla en medición."

/-- The rows of one site sorted ascending by timestamp
(`df[df['sede'] == sede].sort_values('timestamp')`). -/
def sedeRowsSorted (df : List Row) (sede : String) : List Row :=
  insertionSort (fun a b => Timestamp.leB a.timestamp b.timestamp)
    (df.filter (fun r => r.sede = sede))

/-- The per-site total-energy series
(`sede_df.set_index('timestamp')[target_col]`). -/
def sedeSeries (df : List Row) (sede : String) : List ℚ :=
  (sedeRowsSorted df sede).map Row.energia_total_kwh

/-- The body of the per-site loop of `STLAnomalyDetector.detect_anomalies`:
skip a site with fewer than two seasonal periods of data, decompose,
skip when the residual standard deviation is zero, then flag residual
z-scores past the threshold. The pandas sample standard deviation (a real
square root, external to the claims) is the explicit parameter `stdFn`. -/
def stlSedeAnoms (period : Nat) (resThr : ℚ)
    (stlFit : List ℚ → Decomposition) (stdFn : List ℚ → ℚ)
    (df : List Row) (thr : Option Severity) (sede : String) : List Anomaly :=
  let sedeRows := sedeRowsSorted df sede
  if sedeRows.length < period * 2 then []
  else
    let series := sedeSeries df sede
    let comps := decompose period stlFit series
    let residuals := comps.residual
    let rmean := qmean residuals
    let rstd := stdFn residuals
    if rstd = 0 then []
    else
      (List.range sedeRows.length).filterMap (fun i =>
        let z := (residuals.getD i 0 - rmean) / rstd
        if resThr ≤ |z| then
          let severity : Severity :=
            if 5 ≤ |z| then .critical
            else if 4 ≤ |z| then .high
            else if 7/2 ≤ |z| then .medium
            else .low
          if severity.ord < minSevIdx thr then none
          else
            let actual := series.getD i 0
            let expected := comps.trend.getD i 0 + comps.seasonal.getD i 0
            let devPct := if expected ≠ 0 then ((actual - expected) / expected) * 100 else 0
            some { timestamp := (sedeRows.getD i default).timestamp,
                   sede := sede, sector := "total",
                   anomaly_type := if 0 < z then "consumption_spike" else "consumption_drop",
                   severity := severity,
                   actual_value := actual, expected_value := expected,
                   deviation_pct := devPct,
                   description := if 0 < z then stlSpikeDescr else stlDropDescr,
                   recommendation := if 0 < z then stlSpikeRec else stlDropRec,
                   potential_savings_kwh := max 0 (actual - expected),
                   z_score := some z,
                   detection_method := some "stl_decomposition",
                   trend_value := some (comps.trend.getD i 0),
                   seasonal_value := some (comps.seasonal.getD i 0),
                   residual_value := some (residuals.getD i 0) }
        else none)

/-- Embeds `STLAnomalyDetector.detect_anomalies`: the per-site loop over
`df['sede'].unique()`. -/
def stl_detect_anomalies (period : Nat) (resThr : ℚ)
    (stlFit : List ℚ → Decomposition) (stdFn : List ℚ → ℚ)
    (df : List Row) (thr : Option Severity) : List Anomaly :=
  (sedesOf df).bind (stlSedeAnoms period resThr stlFit stdFn df thr)

/-- Embeds `EnsembleAnomalyDetector._run_isolation_forest`: the pretrained model
(its feature pipeline, `predict` and `decision_function`) is abstracted as
the per-row prediction/score pairs `predScores`; rows predicted `-1` become
`statistical_outlier` candidates with the score-magnitude severity cutoffs. -/
def run_isolation_forest (predScores : List (Int × ℚ)) (df : List Row) :
    List Anomaly :=
  let gmean := qmean (df.map Row.energia_total_kwh)
  (df.zip predScores).filterMap (fun p =>
    if p.2.1 = -1 then
      let score := p.2.2
      let severity : Severity :=
        if 3/10 ≤ |score| then .critical
        else if 2/10 ≤ |score| then .high
        else if 1/10 ≤ |score| then .medium
        else .low
      some { timestamp := p.1.timestamp, sede := p.1.sede, sector := "total",
             anomaly_type := "statistical_outlier", severity := severity,
             actual_value := p.1.energia_total_kwh, expected_value := gmean,
             deviation_pct := (p.1.energia_total_kwh - gmean) / gmean * 100,
             description := "Outlier estadístico detectado por Isolation Forest",
             recommendation := "Investigar patrón de consumo inusual.",
             potential_savings_kwh := max 0 (p.1.energia_total_kwh - gmean),
             isolation_score := some score,
             detection_method := some "isolation_forest" }
    else none)

/-- A candidate dictionary after `_merge_anomalies` stamps it with
`anomaly['detected_by'] = detector_name`. -/
structure Tagged where
  anomaly : Anomaly
  detected_by : String
deriving DecidableEq, Repr, Inhabited

/-- A merged anomaly dictionary built inside `_merge_anomalies`
(the `merged_anomaly` literal of `ensemble_detector.py`). -/
structure MergedAnomaly where
  timestamp : Timestamp
  sede : String
  sector : String
  anomaly_type : String
  anomaly_types : List String
  severity : Severity
  actual_value : ℚ
  expected_value : ℚ
  deviation_pct : ℚ
  description : String
  recommendation : String
  potential_savings_kwh : ℚ
  consensus : Nat
  detected_by : List String
  ensemble_score : ℚ
  detection_method : String
deriving DecidableEq, Repr, Inhabited

/-- One entry of the list `_merge_anomalies` returns: either a rebuilt
merged dictionary, or an original candidate passed through by the
single-detection branch. -/
inductive MergedOut
  | merged (m : MergedAnomaly)
  | passthrough (t : Tagged)
deriving DecidableEq, Repr, Inhabited

/-- Embeds `self.weights.get(detector, 0.33)` over the weights dict. -/
def weightOf (w : List (String × ℚ)) (detector : String) : ℚ :=
  (alookup w detector).getD (33/100)

/-- The default detector weights of `EnsembleAnomalyDetector.__init__`. -/
def defaultWeights : List (String × ℚ) :=
  [("rules", 4/10), ("stl", 3/10), ("isolation_forest", 3/10)]

/-- All candidates of the input mapping, each stamped with the name of the
detector that produced it (the tagging loop of `_merge_anomalies`). -/
def taggedOf (input : List (String × List Anomaly)) : List Tagged :=
  input.bind (fun p => p.2.map (fun a => ⟨a, p.1⟩))

/-- The grouping key of a candidate: `(sede, timestamp truncated to the
hour)` — the `grouped[sede][ts_key]` nesting of `_merge_anomalies`. -/
def groupKey (t : Tagged) : String × Timestamp :=
  (t.anomaly.sede, truncToHour t.anomaly.timestamp)

/-- The distinct group keys, in first-occurrence order. -/
def keysOf (input : List (String × List Anomaly)) : List (String × Timestamp) :=
  uniqueFirst ((taggedOf input).map groupKey)

/-- The group of candidates filed under key `k`. -/
def groupFor (input : List (String × List Anomaly)) (k : String × Timestamp) :
    List Tagged :=
  (taggedOf input).filter (fun t => groupKey t = k)

def mergedDescr : String := "Anomalía detectada por varios métodos"
def mergedRec (g0 : Tagged) : String := g0.anomaly.recommendation

/-- The timestamp and severity a sort key reads off an output entry
(`x['timestamp']`, `x['severity']` work on both dictionary shapes). -/
def MergedOut.timestampOf : MergedOut → Timestamp
  | .merged m => m.timestamp
  | .passthrough t => t.anomaly.timestamp

def MergedOut.severityOf : MergedOut → Severity
  | .merged m => m.severity
  | .passthrough t => t.anomaly.severity

/-- The final sort of `_merge_anomalies`: ascending timestamp, ties broken
by descending severity. -/
def mergedLeB (a b : MergedOut) : Bool :=
  if a.timestampOf ≠ b.timestampOf then Timestamp.leB a.timestampOf b.timestampOf
  else b.severityOf.ord ≤ a.severityOf.ord

/-- The severity the Python `max(anomalies_group, key=...)['severity']`
selects: fold over the whole group, starting from the first member,
replacing only on strictly greater ordinal. -/
def highestSeverity (t0 : Tagged) (g : List Tagged) : Severity :=
  g.foldl
    (fun s u => if s.ord < u.anomaly.severity.ord then u.anomaly.severity else s)
    t0.anomaly.severity

/-- The merged dictionary literal built inside `_merge_anomalies` for the
group `g` (whose first member is `t0`) filed under key `k`. -/
def buildMerged (w : List (String × ℚ)) (k : String × Timestamp)
    (t0 : Tagged) (g : List Tagged) : MergedAnomaly :=
  let detectors := uniqueFirst (g.map Tagged.detected_by)
  let avgActual := qmean (g.map (fun t => t.anomaly.actual_value))
  let avgExpected := qmean (g.map (fun t => t.anomaly.expected_value))
  let avgDeviation := qmean (g.map (fun t => t.anomaly.deviation_pct))
  let allTypes := uniqueFirst (g.map (fun t => t.anomaly.anomaly_type))
  let score := g.foldl (fun s u => s + weightOf w u.detected_by) 0
  { timestamp := k.2, sede := k.1, sector := "total",
    anomaly_type := if allTypes.length = 1 then allTypes.headI else "multi_type",
    anomaly_types := allTypes,
    severity := highestSeverity t0 g,
    actual_value := avgActual, expected_value := avgExpected,
    deviation_pct := avgDeviation,
    description := mergedDescr, recommendation := mergedRec t0,
    potential_savings_kwh := max 0 (avgActual - avgExpected),
    consensus := detectors.length, detected_by := detectors,
    ensemble_score := score, detection_method := "ensemble" }

/-- The per-group body of `_merge_anomalies`: count distinct detectors
(`consensus`), and either build one merged dictionary (consensus at least
the minimum), pass the group through unmerged (the
`consensus == 1 and min_consensus == 1` branch), or drop the group. -/
def mergeGroup (mc : Nat) (w : List (String × ℚ)) (k : String × Timestamp)
    (g : List Tagged) : List MergedOut :=
  match g with
  | [] => []
  | t0 :: _ =>
    let consensus := (uniqueFirst (g.map Tagged.detected_by)).length
    if mc ≤ consensus then [.merged (buildMerged w k t0 g)]
    else if consensus = 1 ∧ mc = 1 then g.map .passthrough
    else []

/-- Embeds `EnsembleAnomalyDetector._merge_anomalies`: tag, group by (site, hour),
merge each group, sort the result. -/
def merge_anomalies (mc : Nat) (w : List (String × ℚ))
    (input : List (String × List Anomaly)) : List MergedOut :=
  insertionSort mergedLeB
    ((keysOf input).bind (fun k => mergeGroup mc w k (groupFor input k)))

/-- The mutable state of an `EnsembleAnomalyDetector`: the nested rules
detector's stats, the `is_fitted` flag, and the configuration. The flags
`stl_available` / `if_available` model `self.stl_detector is not None` /
`self.isolation_forest is not None`. -/
structure EnsembleState where
  rules_stats : List (String × Stats)
  is_fitted : Bool
  min_consensus : Nat
  weights : List (String × ℚ)
  stl_available : Bool
  if_available : Bool
deriving Repr

/-- Embeds `EnsembleAnomalyDetector.fit`: recompute the rules detector's
historical stats and set `is_fitted`. -/
def ensembleFit (computeFn : List Row → List (String × Stats))
    (s : EnsembleState) (df : List Row) : EnsembleState :=
  { s with rules_stats := computeFn df, is_fitted := true }

/-- Embeds `EnsembleAnomalyDetector.detect` as a state transition: lines 332-333
lazily `fit` when and only when `is_fitted` is false; then the available
detectors run (rules first, then STL, then the isolation forest, matching
the insertion order into `all_anomalies`) and their outputs are merged.
The nested rules detector's own lazy-compute may also update stored stats. -/
def ensembleDetectStep (computeFn : List Row → List (String × Stats))
    (stlFit : List ℚ → Decomposition) (stdFn : List ℚ → ℚ)
    (predScores : List (Int × ℚ)) (s : EnsembleState) (df : List Row)
    (thr : Option Severity) : EnsembleState × List MergedOut :=
  let s1 := if s.is_fitted then s else ensembleFit computeFn s df
  let rulesRun := rulesDetectStep computeFn ⟨s1.rules_stats⟩ df thr
  let s2 := { s1 with rules_stats := rulesRun.1.historical_stats }
  let input1 := [("rules", rulesRun.2.map DetectedAnomaly.toDict)]
  let input2 :=
    if s.stl_available then
      input1 ++ [("stl", stl_detect_anomalies 24 3 stlFit stdFn df thr)]
    else input1
  let input3 :=
    if s.if_available then
      input2 ++ [("isolation_forest", run_isolation_forest predScores df)]
    else input2
  (s2, merge_anomalies s.min_consensus s.weights input3)

/-- Embeds `EnsembleAnomalyDetector.detect_realtime`: run the rules detector's
real-time path and re-shape each result into a dictionary tagged
`rules_realtime` (the hand-written field list of lines 386-399, which
carries no `z_score` key). -/
def ensembleDetectRealtime (stats : List (String × Stats)) (record : Row)
    (sede : String) : List Anomaly :=
  (detect_for_record stats record sede).map (fun a =>
    { timestamp := a.timestamp, sede := a.sede, sector := a.sector,
      anomaly_type := a.anomaly_type, severity := a.severity,
      actual_value := a.actual_value, expected_value := a.expected_value,
      deviation_pct := a.deviation_pct, description := a.description,
      recommendation := a.recommendation,
      potential_savings_kwh := a.potential_savings_kwh,
      detection_method := some "rules_realtime" })

/-! ### Helper lemmas -/

theorem mem_insertLe {α : Type} (le : α → α → Bool) (x a : α) (l : List α) :
    a ∈ insertLe le x l ↔ a = x ∨ a ∈ l := by
  induction l with
  | nil => simp [insertLe]
  | cons y ys ih =>
    simp only [insertLe]
    split
    · simp [List.mem_cons]
    · simp only [List.mem_cons, ih]
      tauto

theorem mem_insertionSort {α : Type} (le : α → α → Bool) (a : α) (l : List α) :
    a ∈ insertionSort le l ↔ a ∈ l := by
  induction l with
  | nil => simp [insertionSort]
  | cons y ys ih =>
    simp only [insertionSort, mem_insertLe, List.mem_cons, ih]

theorem length_insertLe {α : Type} (le : α → α → Bool) (x : α) (l : List α) :
    (insertLe le x l).length = l.length + 1 := by
  induction l with
  | nil => simp [insertLe]
  | cons y ys ih =>
    simp only [insertLe]
    split <;> simp [ih]

theorem length_insertionSort {α : Type} (le : α → α → Bool) (l : List α) :
    (insertionSort le l).length = l.length := by
  induction l with
  | nil => rfl
  | cons y ys ih => simp [insertionSort, length_insertLe, ih]

theorem mem_uniqueFirst {α : Type} [DecidableEq α] (a : α) (l : List α) :
    a ∈ uniqueFirst l ↔ a ∈ l := by
  simp [uniqueFirst]

theorem nodup_uniqueFirst {α : Type} [DecidableEq α] (l : List α) :
    (uniqueFirst l).Nodup := by
  simpa [uniqueFirst] using l.reverse.nodup_dedup

theorem length_uniqueFirst {α : Type} [DecidableEq α] (l : List α) :
    (uniqueFirst l).length = l.toFinset.card := by
  unfold uniqueFirst
  rw [List.length_reverse, ← List.card_toFinset, List.toFinset_reverse]

theorem sevFoldl_init_le (g : List Tagged) (s : Severity) :
    s.ord ≤ (g.foldl
      (fun a u => if a.ord < u.anomaly.severity.ord then u.anomaly.severity else a)
      s).ord := by
  induction g generalizing s with
  | nil => simp
  | cons v vs ih =>
    simp only [List.foldl_cons]
    refine le_trans ?_ (ih _)
    split <;> omega

theorem sevFoldl_mem_le {g : List Tagged} {u : Tagged} (hu : u ∈ g) (s : Severity) :
    u.anomaly.severity.ord ≤ (g.foldl
      (fun a u => if a.ord < u.anomaly.severity.ord then u.anomaly.severity else a)
      s).ord := by
  induction g generalizing s with
  | nil => cases hu
  | cons v vs ih =>
    simp only [List.foldl_cons]
    rcases List.mem_cons.mp hu with h | h
    · subst h
      refine le_trans ?_ (sevFoldl_init_le vs _)
      split <;> omega
    · exact ih h _

theorem sevFoldl_attained (g : List Tagged) (s : Severity) :
    (g.foldl
      (fun a u => if a.ord < u.anomaly.severity.ord then u.anomaly.severity else a)
      s) = s ∨
    ∃ u ∈ g, (g.foldl
      (fun a u => if a.ord < u.anomaly.severity.ord then u.anomaly.severity else a)
      s) = u.anomaly.severity := by
  induction g generalizing s with
  | nil => exact Or.inl rfl
  | cons v vs ih =>
    simp only [List.foldl_cons]
    rcases ih (if s.ord < v.anomaly.severity.ord then v.anomaly.severity else s) with h | h
    · rw [h]
      split
      · exact Or.inr ⟨v, List.mem_cons_self v vs, rfl⟩
      · exact Or.inl rfl
    · rcases h with ⟨u, hu, he⟩
      exact Or.inr ⟨u, List.mem_cons_of_mem _ hu, he⟩

theorem highestSeverity_mem_le {g : List Tagged} {u : Tagged} (t0 : Tagged)
    (hu : u ∈ g) : u.anomaly.severity.ord ≤ (highestSeverity t0 g).ord :=
  sevFoldl_mem_le hu _

theorem highestSeverity_attained (t0 : Tagged) (g : List Tagged) :
    highestSeverity t0 g = t0.anomaly.severity ∨
    ∃ u ∈ g, highestSeverity t0 g = u.anomaly.severity :=
  sevFoldl_attained g _

theorem scoreFoldl_eq_sum (w : List (String × ℚ)) (g : List Tagged) (init : ℚ) :
    g.foldl (fun s u => s + weightOf w u.detected_by) init =
      init + (g.map (fun t => weightOf w t.detected_by)).sum := by
  induction g generalizing init with
  | nil => simp
  | cons v vs ih =>
    simp only [List.foldl_cons, List.map_cons, List.sum_cons, ih]
    ring

theorem mem_groupFor {input : List (String × List Anomaly)}
    {k : String × Timestamp} {t : Tagged} :
    t ∈ groupFor input k ↔ t ∈ taggedOf input ∧ groupKey t = k := by
  simp [groupFor, List.mem_filter]

theorem merged_mem_mergeGroup {mc : Nat} {w : List (String × ℚ)}
    {k : String × Timestamp} {g : List Tagged} {m : MergedAnomaly} :
    MergedOut.merged m ∈ mergeGroup mc w k g ↔
      ∃ t0 rest, g = t0 :: rest ∧
        mc ≤ (uniqueFirst (g.map Tagged.detected_by)).length ∧
        m = buildMerged w k t0 g := by
  cases g with
  | nil => simp [mergeGroup]
  | cons t0 rest =>
    simp only [mergeGroup]
    split
    case isTrue h =>
      simp only [List.mem_singleton]
      constructor
      · intro he
        exact ⟨t0, rest, rfl, h, by injection he⟩
      · rintro ⟨t0', rest', hg, _, hm⟩
        obtain ⟨h1, h2⟩ := List.cons.injEq t0 rest t0' rest' ▸ hg
        subst h1
        rw [hm]
    case isFalse h =>
      split
      case isTrue h2 =>
        constructor
        · intro hmem
          exfalso
          rcases List.mem_map.mp hmem with ⟨t, _, ht⟩
          cases ht
        · rintro ⟨t0', rest', hg, hc, _⟩
          exact absurd hc h
      case isFalse h2 =>
        constructor
        · intro hmem
          cases hmem
        · rintro ⟨t0', rest', hg, hc, _⟩
          exact absurd hc h

theorem merged_mem_iff {mc : Nat} {w : List (String × ℚ)}
    {input : List (String × List Anomaly)} {m : MergedAnomaly} :
    MergedOut.merged m ∈ merge_anomalies mc w input ↔
      ∃ k ∈ keysOf input,
        MergedOut.merged m ∈ mergeGroup mc w k (groupFor input k) := by
  unfold merge_anomalies
  rw [mem_insertionSort]
  simp [List.mem_bind]

theorem buildMerged_sede (w : List (String × ℚ)) (k : String × Timestamp)
    (t0 : Tagged) (g : List Tagged) : (buildMerged w k t0 g).sede = k.1 := rfl

theorem buildMerged_timestamp (w : List (String × ℚ)) (k : String × Timestamp)
    (t0 : Tagged) (g : List Tagged) : (buildMerged w k t0 g).timestamp = k.2 := rfl

/-- The summed group weight referenced by the corrected ensemble-score
property: one weight term per group member (not per distinct detector). -/
def groupWeightSum (w : List (String × ℚ)) (input : List (String × List Anomaly))
    (k : String × Timestamp) : ℚ :=
  ((groupFor input k).map (fun t => weightOf w t.detected_by)).sum

/-- Projection of the ensemble score out of an output entry. -/
def mergedScoreOf : MergedOut → Option ℚ
  | .merged m => some m.ensemble_score
  | .passthrough _ => none

/-- Whether an output entry is a rebuilt merged dictionary. -/
def MergedOut.isMergedShape : MergedOut → Bool
  | .merged _ => true
  | .passthrough _ => false

/-- Shorthand for building a concrete candidate dictionary. -/
def mkAnom (ts : Timestamp) (sede atype : String) (sev : Severity)
    (actual expected dev : ℚ) (rec : String) : Anomaly :=
  { timestamp := ts, sede := sede, sector := "total", anomaly_type := atype,
    severity := sev, actual_value := actual, expected_value := expected,
    deviation_pct := dev, description := "obs", recommendation := rec,
    potential_savings_kwh := max 0 (actual - expected) }

theorem buildMerged_severity (w : List (String × ℚ)) (k : String × Timestamp)
    (t0 : Tagged) (g : List Tagged) :
    (buildMerged w k t0 g).severity = highestSeverity t0 g := rfl

theorem buildMerged_consensus (w : List (String × ℚ)) (k : String × Timestamp)
    (t0 : Tagged) (g : List Tagged) :
    (buildMerged w k t0 g).consensus =
      (uniqueFirst (g.map Tagged.detected_by)).length := rfl

theorem buildMerged_score (w : List (String × ℚ)) (k : String × Timestamp)
    (t0 : Tagged) (g : List Tagged) :
    (buildMerged w k t0 g).ensemble_score =
      (g.map (fun t => weightOf w t.detected_by)).sum := by
  show g.foldl (fun s u => s + weightOf w u.detected_by) 0 = _
  rw [scoreFoldl_eq_sum]
  ring

/-- Unpacked form of membership of a merged dictionary in the merger's
output, with the group re-identified from the emitted (site, timestamp). -/
theorem merged_mem_unpack {mc : Nat} {w : List (String × ℚ)}
    {input : List (String × List Anomaly)} {m : MergedAnomaly}
    (hm : MergedOut.merged m ∈ merge_anomalies mc w input) :
    ∃ t0 rest,
      groupFor input (m.sede, m.timestamp) = t0 :: rest ∧
      mc ≤ (uniqueFirst ((groupFor input (m.sede, m.timestamp)).map Tagged.detected_by)).length ∧
      m = buildMerged w (m.sede, m.timestamp) t0 (groupFor input (m.sede, m.timestamp)) := by
  rcases merged_mem_iff.mp hm with ⟨k, _, hmk⟩
  rcases merged_mem_mergeGroup.mp hmk with ⟨t0, rest, hg, hc, hmeq⟩
  have hkey : (m.sede, m.timestamp) = k := by
    rw [hmeq, buildMerged_sede, buildMerged_timestamp]
  rw [hkey]
  exact ⟨t0, rest, hg, hc, hmeq⟩

/-- C1: every emitted MergedAnomaly carries the maximum severity among the
contributing candidates of its (site, hour) group, under the ordinal
low < medium < high < critical. -/
theorem merged_severity_is_group_max (mc : Nat) (w : List (String × ℚ))
    (input : List (String × List Anomaly)) (m : MergedAnomaly)
    (hm : MergedOut.merged m ∈ merge_anomalies mc w input) :
    (∀ t ∈ groupFor input (m.sede, m.timestamp),
        t.anomaly.severity.ord ≤ m.severity.ord) ∧
    ∃ t ∈ groupFor input (m.sede, m.timestamp),
        t.anomaly.severity = m.severity := by
  rcases merged_mem_unpack hm with ⟨t0, rest, hg, _, hmeq⟩
  have hsev : m.severity = highestSeverity t0 (groupFor input (m.sede, m.timestamp)) := by
    have := congrArg MergedAnomaly.severity hmeq
    rwa [buildMerged_severity] at this
  constructor
  · intro t ht
    rw [hsev]
    exact highestSeverity_mem_le t0 ht
  · have h0 : t0 ∈ groupFor input (m.sede, m.timestamp) := by
      rw [hg]; exact List.mem_cons_self _ _
    rcases highestSeverity_attained t0 (groupFor input (m.sede, m.timestamp)) with h | ⟨u, hu, he⟩
    · exact ⟨t0, h0, by rw [hsev, h]⟩
    · exact ⟨u, hu, by rw [hsev, he]⟩

def wA1 : Anomaly := mkAnom ⟨800, 14, 30, 0⟩ "Tunja" "off_hours_usage" .high 80 50 60 "r1"
def wA2 : Anomaly := mkAnom ⟨800, 14, 45, 0⟩ "Tunja" "consumption_spike" .low 60 50 20 "r2"
def wInput : List (String × List Anomaly) := [("rules", [wA1]), ("stl", [wA2])]

/-- The merged dictionary the merger emits on `wInput` at minimum consensus 2. -/
def wM : MergedAnomaly :=
  { timestamp := ⟨800, 14, 0, 0⟩, sede := "Tunja", sector := "total",
    anomaly_type := "multi_type",
    anomaly_types := ["off_hours_usage", "consumption_spike"],
    severity := .high, actual_value := 70, expected_value := 50,
    deviation_pct := 40, description := mergedDescr, recommendation := "r1",
    potential_savings_kwh := 20, consensus := 2,
    detected_by := ["rules", "stl"], ensemble_score := 7/10,
    detection_method := "ensemble" }

/-- Evaluation of the merger on the concrete input `wInput`. -/
theorem wEval : merge_anomalies 2 defaultWeights wInput = [MergedOut.merged wM] := by
  norm_num +decide [merge_anomalies, wInput, wA1, wA2, mkAnom, taggedOf, keysOf,
    uniqueFirst, groupKey, truncToHour, groupFor, mergeGroup, buildMerged,
    highestSeverity, qmean, weightOf, mergedDescr, mergedRec, defaultWeights,
    insertionSort, insertLe, Severity.ord, wM, alookup, List.dedup, List.pwFilter]

/-- Evaluation of the (site, hour) group of `wM` on the input `wInput`. -/
theorem wGroupEval :
    groupFor wInput (wM.sede, wM.timestamp) = [⟨wA1, "rules"⟩, ⟨wA2, "stl"⟩] := rfl

theorem wMem : MergedOut.merged wM ∈ merge_anomalies 2 defaultWeights wInput := by
  rw [wEval]; exact List.mem_singleton_self _

/-- Witness for C1 at a concrete two-detector input: the first candidate's
severity ordinal is bounded by the emitted merged severity's ordinal. -/
theorem merged_severity_is_group_max_witness :
    (Tagged.mk wA1 "rules").anomaly.severity.ord ≤ wM.severity.ord :=
  (merged_severity_is_group_max 2 defaultWeights wInput wM wMem).1
    ⟨wA1, "rules"⟩ (wGroupEval ▸ List.mem_cons_self _ _)

/-- C2: the consensus of every emitted MergedAnomaly equals the number of
distinct detector names contributing to its (site, hour) group and is at
least the configured minimum; and with minimum consensus 2, a group fed by
exactly one distinct detector emits no MergedAnomaly. -/
theorem merged_consensus_spec (mc : Nat) (w : List (String × ℚ))
    (input : List (String × List Anomaly)) :
    (∀ m : MergedAnomaly, MergedOut.merged m ∈ merge_anomalies mc w input →
      m.consensus =
        ((groupFor input (m.sede, m.timestamp)).map Tagged.detected_by).toFinset.card ∧
      mc ≤ m.consensus) ∧
    (mc = 2 → ∀ k : String × Timestamp,
      ((groupFor input k).map Tagged.detected_by).toFinset.card = 1 →
      ∀ m : MergedAnomaly, MergedOut.merged m ∈ merge_anomalies mc w input →
        (m.sede, m.timestamp) ≠ k) := by
  have main : ∀ m : MergedAnomaly, MergedOut.merged m ∈ merge_anomalies mc w input →
      m.consensus =
        ((groupFor input (m.sede, m.timestamp)).map Tagged.detected_by).toFinset.card ∧
      mc ≤ m.consensus := by
    intro m hm
    rcases merged_mem_unpack hm with ⟨t0, rest, hg, hc, hmeq⟩
    have hcons := congrArg MergedAnomaly.consensus hmeq
    rw [buildMerged_consensus] at hcons
    constructor
    · rw [hcons, length_uniqueFirst]
    · rw [hcons]; exact hc
  refine ⟨main, ?_⟩
  rintro rfl k hk m hm rfl
  rcases main m hm with ⟨hcard, hge⟩
  rw [hcard] at hge
  rw [hk] at hge
  omega

/-- Witness for C2 at a concrete two-detector input: the emitted merged
dictionary reports a consensus of at least the configured minimum 2. -/
theorem merged_consensus_spec_witness : 2 ≤ wM.consensus :=
  ((merged_consensus_spec 2 defaultWeights wInput).1 wM wMem).2

/-- C9: every emitted MergedAnomaly is stamped with its group key truncated
to the hour — minutes and seconds zero — and every contributing candidate of
its (site, hour) group truncates to exactly that shared timestamp. -/
theorem merged_timestamp_truncated (mc : Nat) (w : List (String × ℚ))
    (input : List (String × List Anomaly)) (m : MergedAnomaly)
    (hm : MergedOut.merged m ∈ merge_anomalies mc w input) :
    m.timestamp.minute = 0 ∧ m.timestamp.second = 0 ∧
    groupFor input (m.sede, m.timestamp) ≠ [] ∧
    ∀ t ∈ groupFor input (m.sede, m.timestamp),
      truncToHour t.anomaly.timestamp = m.timestamp ∧ t.anomaly.sede = m.sede := by
  rcases merged_mem_unpack hm with ⟨t0, rest, hg, _, _⟩
  have hkeys : ∀ t ∈ groupFor input (m.sede, m.timestamp),
      truncToHour t.anomaly.timestamp = m.timestamp ∧ t.anomaly.sede = m.sede := by
    intro t ht
    have := (mem_groupFor.mp ht).2
    have h1 := congrArg Prod.fst this
    have h2 := congrArg Prod.snd this
    simp only [groupKey] at h1 h2
    exact ⟨h2, h1⟩
  have h0 : t0 ∈ groupFor input (m.sede, m.timestamp) := by
    rw [hg]; exact List.mem_cons_self _ _
  have htr := (hkeys t0 h0).1
  refine ⟨?_, ?_, ?_, hkeys⟩
  · rw [← htr]; rfl
  · rw [← htr]; rfl
  · rw [hg]; exact List.cons_ne_nil _ _

/-- Witness for C9: the concrete merged output at `wInput` carries a
minute-zero timestamp. -/
theorem merged_timestamp_truncated_witness : wM.timestamp.minute = 0 :=
  (merged_timestamp_truncated 2 defaultWeights wInput wM wMem).1

def c6A1 : Anomaly := mkAnom ⟨900, 10, 5, 0⟩ "S" "consumption_spike" .low 100 50 10 "rr"
def c6A2 : Anomaly := mkAnom ⟨900, 10, 20, 0⟩ "S" "consumption_spike" .low 100 50 10 "rr"
def c6A3 : Anomaly := mkAnom ⟨900, 10, 55, 0⟩ "S" "consumption_spike" .low 100 50 10 "rr"

/-- An input where the rules detector contributes two candidates to one
(site, hour) group and the residual detector contributes one. -/
def c6Input : List (String × List Anomaly) :=
  [("rules", [c6A1, c6A2]), ("stl", [c6A3])]

/-- The merged dictionary the merger emits on `c6Input`: its ensemble score
counts the rules weight twice. -/
def c6M : MergedAnomaly :=
  { timestamp := ⟨900, 10, 0, 0⟩, sede := "S", sector := "total",
    anomaly_type := "consumption_spike", anomaly_types := ["consumption_spike"],
    severity := .low, actual_value := 100, expected_value := 50,
    deviation_pct := 10, description := mergedDescr, recommendation := "rr",
    potential_savings_kwh := 50, consensus := 2,
    detected_by := ["rules", "stl"], ensemble_score := 11/10,
    detection_method := "ensemble" }

/-- Evaluation of the merger on the concrete input `c6Input`. -/
theorem c6Eval : merge_anomalies 2 defaultWeights c6Input = [MergedOut.merged c6M] := by
  norm_num +decide [merge_anomalies, c6Input, c6A1, c6A2, c6A3, mkAnom, taggedOf,
    keysOf, uniqueFirst, groupKey, truncToHour, groupFor, mergeGroup, buildMerged,
    highestSeverity, qmean, weightOf, mergedDescr, mergedRec, defaultWeights,
    insertionSort, insertLe, Severity.ord, c6M, alookup, List.dedup, List.pwFilter]

theorem c6Mem : MergedOut.merged c6M ∈ merge_anomalies 2 defaultWeights c6Input := by
  rw [c6Eval]; exact List.mem_singleton_self _

/-- Counterexample to C6: on `c6Input` the emitted ensemble score is
0.4 + 0.4 + 0.3 = 1.1 — the rules weight is added once per candidate — while
the sum over the distinct contributing detectors would be 0.4 + 0.3 = 0.7. -/
theorem ensemble_score_distinct_cex :
    (merge_anomalies 2 defaultWeights c6Input).map mergedScoreOf = [some (11/10)] ∧
    ¬ ((11/10 : ℚ) = 4/10 + 3/10) := by
  constructor
  · rw [c6Eval]; rfl
  · norm_num

/-- C6 (amended): the ensemble score of every emitted MergedAnomaly is the
sum, over the individual candidates of its (site, hour) group, of the
configured weight of the candidate's detector (default 0.33 for unknown
names) — a detector adds its weight once per contributed candidate. -/
theorem ensemble_score_per_candidate (mc : Nat) (w : List (String × ℚ))
    (input : List (String × List Anomaly)) (m : MergedAnomaly)
    (hm : MergedOut.merged m ∈ merge_anomalies mc w input) :
    m.ensemble_score = groupWeightSum w input (m.sede, m.timestamp) := by
  rcases merged_mem_unpack hm with ⟨t0, rest, hg, _, hmeq⟩
  have h := congrArg MergedAnomaly.ensemble_score hmeq
  rw [buildMerged_score] at h
  exact h

/-- Witness for the amended C6 at the concrete input `c6Input`. -/
theorem ensemble_score_per_candidate_witness :
    c6M.ensemble_score = groupWeightSum defaultWeights c6Input (c6M.sede, c6M.timestamp) :=
  ensemble_score_per_candidate 2 defaultWeights c6Input c6M c6Mem

def c4A : Anomaly := mkAnom ⟨901, 9, 30, 0⟩ "D" "off_hours_usage" .medium 100 40 25 "r4"

/-- An input where exactly one detector contributes exactly one candidate. -/
def c4Input : List (String × List Anomaly) := [("rules", [c4A])]

/-- The merged dictionary emitted for the singleton group of `c4Input` at
minimum consensus 1. -/
def c4M : MergedAnomaly :=
  { timestamp := ⟨901, 9, 0, 0⟩, sede := "D", sector := "total",
    anomaly_type := "off_hours_usage", anomaly_types := ["off_hours_usage"],
    severity := .medium, actual_value := 100, expected_value := 40,
    deviation_pct := 25, description := mergedDescr, recommendation := "r4",
    potential_savings_kwh := 60, consensus := 1, detected_by := ["rules"],
    ensemble_score := 4/10, detection_method := "ensemble" }

/-- Evaluation of the merger on `c4Input` at minimum consensus 1. -/
theorem c4Eval : merge_anomalies 1 defaultWeights c4Input = [MergedOut.merged c4M] := by
  norm_num +decide [merge_anomalies, c4Input, c4A, mkAnom, taggedOf, keysOf,
    uniqueFirst, groupKey, truncToHour, groupFor, mergeGroup, buildMerged,
    highestSeverity, qmean, weightOf, mergedDescr, mergedRec, defaultWeights,
    insertionSort, insertLe, Severity.ord, c4M, alookup, List.dedup, List.pwFilter]

theorem c4Mem : MergedOut.merged c4M ∈ merge_anomalies 1 defaultWeights c4Input := by
  rw [c4Eval]; exact List.mem_singleton_self _

/-- Counterexample to C4: with minimum consensus 1, a group fed by a single
detector is emitted as a rebuilt MergedAnomaly (hour-truncated timestamp,
consensus field, ensemble shape), not as the original candidate dictionary. -/
theorem singleton_passthrough_cex :
    merge_anomalies 1 defaultWeights c4Input = [MergedOut.merged c4M] ∧
    MergedOut.passthrough ⟨c4A, "rules"⟩ ∉ merge_anomalies 1 defaultWeights c4Input := by
  refine ⟨c4Eval, ?_⟩
  rw [c4Eval]
  simp

/-- C4 (amended): no output entry of the merger is ever an original
candidate passed through unmerged — the single-detection branch is
unreachable, because whenever its guard `consensus == 1 and
min_consensus == 1` holds, the merging branch `consensus >= min_consensus`
has already fired. -/
theorem merge_output_always_merged_shape (mc : Nat) (w : List (String × ℚ))
    (input : List (String × List Anomaly)) (o : MergedOut)
    (ho : o ∈ merge_anomalies mc w input) : o.isMergedShape = true := by
  unfold merge_anomalies at ho
  rw [mem_insertionSort] at ho
  rcases List.mem_bind.mp ho with ⟨k, _, hk⟩
  rcases hg : groupFor input k with _ | ⟨t0, rest⟩ <;> rw [hg] at hk
  · simp [mergeGroup] at hk
  · simp only [mergeGroup] at hk
    split at hk
    · rcases List.mem_singleton.mp hk with rfl; rfl
    · rename_i hnot
      split at hk
      · rename_i hcond
        exact absurd (le_of_eq (hcond.2.trans hcond.1.symm)) hnot
      · cases hk

/-- Witness for the amended C4: the entry emitted for `c4Input` is
merged-shaped. -/
theorem merge_output_always_merged_shape_witness :
    (MergedOut.merged c4M).isMergedShape = true :=
  merge_output_always_merged_shape 1 defaultWeights c4Input (MergedOut.merged c4M) c4Mem

def c3Stats : Stats :=
  { mean := 50, std := 10, median := 50, working_hours_mean := 100,
    non_working_mean := 90, weekend_mean := 40, weekday_mean := 100,
    sector_stats := [] }

def c3Row : Row :=
  { timestamp := ⟨700, 3, 0, 0⟩, sede := "Tunja", hora := 3, dia_semana := 2,
    energia_total_kwh := 80, ocupacion_pct := none, es_festivo := false,
    periodo_academico := "clases" }

/-- Counterexample to C3: an off-hours record above the off-hours threshold
(35) but below the non-working-hours mean (90) is emitted with a negative
potential-savings value — the rules engine does not clamp it at zero. -/
theorem savings_nonneg_cex :
    (check_off_hours c3Row c3Stats).map DetectedAnomaly.potential_savings_kwh =
      some (-10) ∧ ((-10 : ℚ) < 0) := by
  constructor
  · norm_num +decide [check_off_hours, c3Row, c3Stats, offHoursHours,
      get_severity, offHoursThresholds]
  · norm_num

/-- C3 (amended): the potential-savings value is non-negative for spike,
occupancy-imbalance, holiday and vacation rule candidates (by their trigger
conditions), for every residual-detector and outlier-model candidate and
every MergedAnomaly (clamped at zero) — but not for off-hours and weekend
rule candidates, which may go negative when actual < expected. -/
theorem savings_nonneg_amended :
    (∀ row st a, 0 ≤ st.std → check_spike row st = some a →
      0 ≤ a.potential_savings_kwh) ∧
    (∀ row st a, 0 ≤ st.mean → check_low_occupancy row st = some a →
      0 ≤ a.potential_savings_kwh) ∧
    (∀ row st a, check_holiday row st = some a → 0 ≤ a.potential_savings_kwh) ∧
    (∀ row st a, check_vacation row st = some a → 0 ≤ a.potential_savings_kwh) ∧
    (∀ period resThr stlFit stdFn df thr a,
      a ∈ stl_detect_anomalies period resThr stlFit stdFn df thr →
      0 ≤ a.potential_savings_kwh) ∧
    (∀ ps df a, a ∈ run_isolation_forest ps df → 0 ≤ a.potential_savings_kwh) ∧
    (∀ mc w input m, MergedOut.merged m ∈ merge_anomalies mc w input →
      0 ≤ m.potential_savings_kwh) := by
  refine ⟨?_, ?_, ?_, ?_, ?_, ?_, ?_⟩
  · intro row st a hstd ha
    simp only [check_spike] at ha
    split at ha
    · simp at ha
    · rename_i hstd0
      split at ha
      · rename_i hz
        split at ha
        · injection ha with h
          subst h
          show (0:ℚ) ≤ row.energia_total_kwh - st.mean
          have hstdpos : 0 < st.std := lt_of_le_of_ne hstd (Ne.symm hstd0)
          rw [le_div_iff hstdpos] at hz
          nlinarith
        · simp at ha
      · simp at ha
  · intro row st a hmean ha
    unfold check_low_occupancy at ha
    rcases hocc : row.ocupacion_pct with _ | occ <;> rw [hocc] at ha <;> dsimp only at ha
    · exact absurd ha (by simp)
    · split at ha
      · exact absurd ha (by simp)
      · rename_i hlt
        split at ha
        · rename_i hthr
          injection ha with h
          subst h
          show (0:ℚ) ≤ row.energia_total_kwh - st.mean * (occ / 100)
          nlinarith [mul_nonneg hmean (by linarith : (0:ℚ) ≤ 30 - occ)]
        · exact absurd ha (by simp)
  · intro row st a ha
    simp only [check_holiday] at ha
    split at ha
    · split at ha
      · rename_i hthr
        injection ha with h
        subst h
        show (0:ℚ) ≤ row.energia_total_kwh - st.mean * (30/100)
        linarith
      · simp at ha
    · simp at ha
  · intro row st a ha
    simp only [check_vacation] at ha
    split at ha
    · split at ha
      · rename_i hthr
        injection ha with h
        subst h
        show (0:ℚ) ≤ row.energia_total_kwh - st.mean * (40/100)
        linarith
      · simp at ha
    · simp at ha
  · intro period resThr stlFit stdFn df thr a ha
    simp only [stl_detect_anomalies, List.mem_bind] at ha
    obtain ⟨sede, _, ha⟩ := ha
    simp only [stlSedeAnoms] at ha
    split at ha
    · simp at ha
    · split at ha
      · simp at ha
      · rcases List.mem_filterMap.mp ha with ⟨i, _, hf⟩
        repeat' split at hf
        all_goals
          first
          | (injection hf with h; subst h; exact le_max_left _ _)
          | injection hf
  · intro ps df a ha
    rcases List.mem_filterMap.mp ha with ⟨p, _, hf⟩
    split at hf
    · injection hf with h
      subst h
      exact le_max_left _ _
    · simp at hf
  · intro mc w input m hm
    rcases merged_mem_unpack hm with ⟨t0, rest, _, _, hmeq⟩
    have h := congrArg MergedAnomaly.potential_savings_kwh hmeq
    rw [h]
    exact le_max_left _ _

def c3hRow : Row :=
  { timestamp := ⟨701, 12, 0, 0⟩, sede := "T", hora := 12, dia_semana := 1,
    energia_total_kwh := 50, ocupacion_pct := none, es_festivo := true,
    periodo_academico := "clases" }

def c3hStats : Stats :=
  { mean := 100, std := 5, median := 100, working_hours_mean := 120,
    non_working_mean := 30, weekend_mean := 40, weekday_mean := 110,
    sector_stats := [] }

/-- The holiday candidate emitted on `c3hRow`. -/
def c3hA : DetectedAnomaly :=
  { timestamp := ⟨701, 12, 0, 0⟩, sede := "T", sector := "total",
    anomaly_type := "holiday_consumption", severity := .medium,
    actual_value := 50, expected_value := 30, deviation_pct := 200/3,
    description := holidayDescr, recommendation := holidayRec,
    potential_savings_kwh := 20, z_score := none }

theorem c3hEval : check_holiday c3hRow c3hStats = some c3hA := by
  norm_num +decide [check_holiday, c3hRow, c3hStats, get_severity,
    holidayThresholds, c3hA]

/-- Witness for the amended C3: the concrete holiday candidate carries
non-negative savings. -/
theorem savings_nonneg_amended_witness : 0 ≤ c3hA.potential_savings_kwh :=
  savings_nonneg_amended.2.2.1 c3hRow c3hStats c3hA c3hEval

/-- C5: a detection call on a detector already holding fitted baseline
statistics leaves them unchanged — recomputation happens only through the
explicit fit operation, and holds for every statistics computation. -/
theorem detect_preserves_fitted_baseline :
    (∀ computeFn (d : RulesBasedDetectorState) df thr, d.historical_stats ≠ [] →
      (rulesDetectStep computeFn d df thr).1 = d) ∧
    (∀ computeFn stlFit stdFn predScores (s : EnsembleState) df thr,
      s.is_fitted = true → s.rules_stats ≠ [] →
      (ensembleDetectStep computeFn stlFit stdFn predScores s df thr).1 = s) := by
  constructor
  · intro computeFn d df thr h
    simp [rulesDetectStep, List.isEmpty_iff, h]
  · intro computeFn stlFit stdFn ps s df thr hf hs
    simp [ensembleDetectStep, rulesDetectStep, ensembleFit, hf, List.isEmpty_iff, hs]
    rw [← hf]

def wD5 : RulesBasedDetectorState := ⟨[("T", c3Stats)]⟩

def wS5 : EnsembleState :=
  { rules_stats := [("T", c3Stats)], is_fitted := true, min_consensus := 2,
    weights := defaultWeights, stl_available := true, if_available := false }

/-- Witness for C5 on a concrete fitted state. -/
theorem detect_preserves_fitted_baseline_witness :
    (rulesDetectStep (fun _ => []) wD5 [] none).1 = wD5 ∧
    (ensembleDetectStep (fun _ => []) (fun _ => ⟨[], [], []⟩) (fun _ => 0) []
        wS5 [] none).1 = wS5 :=
  ⟨detect_preserves_fitted_baseline.1 _ wD5 [] none (by simp [wD5]),
   detect_preserves_fitted_baseline.2 _ _ _ _ wS5 [] none rfl (by simp [wS5])⟩

/-- C7: when the fitted historical standard deviation of a site is zero, the
spike rule emits nothing whatever the record, and the residual detector
skips a site whose residual series has standard deviation zero. -/
theorem zero_std_no_spike :
    (∀ row st, st.std = 0 → check_spike row st = none) ∧
    (∀ period resThr stlFit stdFn df thr sede,
      stdFn (decompose period stlFit (sedeSeries df sede)).residual = 0 →
      stlSedeAnoms period resThr stlFit stdFn df thr sede = []) := by
  constructor
  · intro row st h
    simp [check_spike, h]
  · intro period resThr stlFit stdFn df thr sede h
    simp only [stlSedeAnoms]
    split
    · rfl
    · simp [h]

/-- Witness for C7: a concrete zero-variance site yields no spike candidate,
and a concrete zero residual standard deviation empties the residual path. -/
theorem zero_std_no_spike_witness :
    check_spike c3Row { c3Stats with std := 0 } = none ∧
    stlSedeAnoms 24 3 (fun _ => ⟨[], [], []⟩) (fun _ => 0) [] none "T" = [] :=
  ⟨zero_std_no_spike.1 c3Row _ rfl, zero_std_no_spike.2 24 3 _ _ [] none "T" rfl⟩

/-- C8: a per-site series shorter than two seasonal periods makes the
decomposition return the identity fallback (trend = series, seasonal = 0,
residual = 0) instead of failing, and such a site contributes zero
residual-based candidates. -/
theorem short_series_identity_fallback :
    (∀ period stlFit series, series.length < period * 2 →
      decompose period stlFit series =
        { trend := series, seasonal := series.map (fun _ => 0),
          residual := series.map (fun _ => 0) }) ∧
    (∀ period resThr stlFit stdFn df thr sede,
      (df.filter (fun r => r.sede = sede)).length < period * 2 →
      stlSedeAnoms period resThr stlFit stdFn df thr sede = []) := by
  constructor
  · intro period stlFit series h
    simp [decompose, h]
  · intro period resThr stlFit stdFn df thr sede h
    have hlen : (sedeRowsSorted df sede).length < period * 2 := by
      rw [sedeRowsSorted, length_insertionSort]; exact h
    simp [stlSedeAnoms, hlen]

/-- Witness for C8: a three-sample series at the default period 24. -/
theorem short_series_identity_fallback_witness :
    decompose 24 (fun _ => ⟨[], [], []⟩) [5, 6, 7] =
      { trend := [5, 6, 7], seasonal := [0, 0, 0], residual := [0, 0, 0] } ∧
    stlSedeAnoms 24 3 (fun _ => ⟨[], [], []⟩) (fun _ => 1) [] none "T" = [] := by
  constructor
  · have h := short_series_identity_fallback.1 24 (fun _ => ⟨[], [], []⟩) [5, 6, 7]
      (by decide)
    simpa using h
  · exact short_series_identity_fallback.2 24 3 _ _ [] none "T" (by decide)

theorem checks_sector {row : Row} {st : Stats} {a : DetectedAnomaly}
    (h : check_off_hours row st = some a ∨ check_weekend row st = some a ∨
      check_spike row st = some a ∨ check_low_occupancy row st = some a ∨
      check_holiday row st = some a ∨ check_vacation row st = some a) :
    a.sector = "total" := by
  rcases h with h | h | h | h | h | h <;>
    (simp only [check_off_hours, check_weekend, check_spike, check_low_occupancy,
       check_holiday, check_vacation] at h
     repeat' split at h
     all_goals first | (injection h with h2; subst h2; rfl) | injection h)

theorem rules_detect_sector {stats : List (String × Stats)} {df : List Row}
    {thr : Option Severity} {a : DetectedAnomaly}
    (ha : a ∈ rules_detect stats df thr) : a.sector = "total" := by
  simp only [rules_detect, List.mem_bind] at ha
  obtain ⟨sede, _, ha⟩ := ha
  rcases hl : alookup stats sede with _ | st <;> rw [hl] at ha <;> dsimp only at ha
  · simp at ha
  · rw [List.mem_bind] at ha
    obtain ⟨row, _, ha⟩ := ha
    rw [List.mem_filter] at ha
    obtain ⟨ha1, _⟩ := ha
    rcases List.mem_filterMap.mp ha1 with ⟨x, hx, hid⟩
    simp only [id_eq] at hid
    subst hid
    simp only [List.mem_cons, List.not_mem_nil, or_false] at hx
    rcases hx with hx | hx | hx | hx | hx | hx
    · exact checks_sector (Or.inl hx.symm)
    · exact checks_sector (Or.inr (Or.inl hx.symm))
    · exact checks_sector (Or.inr (Or.inr (Or.inl hx.symm)))
    · exact checks_sector (Or.inr (Or.inr (Or.inr (Or.inl hx.symm))))
    · exact checks_sector (Or.inr (Or.inr (Or.inr (Or.inr (Or.inl hx.symm)))))
    · exact checks_sector (Or.inr (Or.inr (Or.inr (Or.inr (Or.inr hx.symm)))))

theorem detect_for_record_sector {stats : List (String × Stats)} {record : Row}
    {sede : String} {a : DetectedAnomaly}
    (ha : a ∈ detect_for_record stats record sede) : a.sector = "total" := by
  simp only [detect_for_record] at ha
  rcases hl : alookup stats sede with _ | st <;> rw [hl] at ha <;> dsimp only at ha
  · simp at ha
  · rcases List.mem_filterMap.mp ha with ⟨x, hx, hid⟩
    simp only [id_eq] at hid
    subst hid
    simp only [List.mem_cons, List.not_mem_nil, or_false] at hx
    rcases hx with hx | hx | hx | hx | hx
    · exact checks_sector (Or.inl hx.symm)
    · exact checks_sector (Or.inr (Or.inl hx.symm))
    · exact checks_sector (Or.inr (Or.inr (Or.inl hx.symm)))
    · exact checks_sector (Or.inr (Or.inr (Or.inr (Or.inl hx.symm))))
    · exact checks_sector (Or.inr (Or.inr (Or.inr (Or.inr (Or.inl hx.symm)))))

/-- C10: every candidate emitted by the rules batch path, the rules
real-time path, the residual detector and the outlier-model adapter, and
every MergedAnomaly, carries the literal sector 'total'. -/
theorem sector_always_total :
    (∀ stats df thr a, a ∈ rules_detect stats df thr → a.sector = "total") ∧
    (∀ stats record sede a, a ∈ detect_for_record stats record sede →
      a.sector = "total") ∧
    (∀ stats record sede a, a ∈ ensembleDetectRealtime stats record sede →
      a.sector = "total") ∧
    (∀ period resThr stlFit stdFn df thr a,
      a ∈ stl_detect_anomalies period resThr stlFit stdFn df thr →
      a.sector = "total") ∧
    (∀ ps df a, a ∈ run_isolation_forest ps df → a.sector = "total") ∧
    (∀ mc w input m, MergedOut.merged m ∈ merge_anomalies mc w input →
      m.sector = "total") := by
  refine ⟨fun stats df thr a ha => rules_detect_sector ha,
    fun stats record sede a ha => detect_for_record_sector ha, ?_, ?_, ?_, ?_⟩
  · intro stats record sede a ha
    simp only [ensembleDetectRealtime, List.mem_map] at ha
    obtain ⟨b, hb, rfl⟩ := ha
    show b.sector = "total"
    exact detect_for_record_sector hb
  · intro period resThr stlFit stdFn df thr a ha
    simp only [stl_detect_anomalies, List.mem_bind] at ha
    obtain ⟨sede, _, ha⟩ := ha
    simp only [stlSedeAnoms] at ha
    split at ha
    · simp at ha
    · split at ha
      · simp at ha
      · rcases List.mem_filterMap.mp ha with ⟨i, _, hf⟩
        repeat' split at hf
        all_goals first | (injection hf with h; subst h; rfl) | injection hf
  · intro ps df a ha
    rcases List.mem_filterMap.mp ha with ⟨p, _, hf⟩
    split at hf
    · injection hf with h
      subst h
      rfl
    · injection hf
  · intro mc w input m hm
    rcases merged_mem_unpack hm with ⟨t0, rest, _, _, hmeq⟩
    have h := congrArg MergedAnomaly.sector hmeq
    rw [h]
    rfl

/-- Witness for C10: the concrete merged output of `c4Input` carries
sector 'total'. -/
theorem sector_always_total_witness : c4M.sector = "total" :=
  sector_always_total.2.2.2.2.2 1 defaultWeights c4Input c4M c4Mem
